import Mathlib

/-!
Verification of the BufferHub producer/registry core of
platform_frameworks_native (DerpFest-bullhead).

The producer-side queue adapter (`BufferHubProducer.cpp`) is embedded from
the sources.  The per-buffer client registry (`BufferNode`), the shared
ownership-state `Gain` transition, the libgui per-slot `BufferState`
machine, `ui::Rect::intersect` and the `dvr::ProducerQueue` collaborator
are not among the sources (only their tests, headers and callers are);
those are modelled from the spec, as marked on each definition.
-/

namespace BufferHubV

/-! ## Status codes (android `status_t`, from `utils/Errors.h` conventions) -/

def NO_ERROR : Int := 0

def BAD_VALUE : Int := -22

def NO_MEMORY : Int := -12

def NO_INIT : Int := -19

def INVALID_OPERATION : Int := -38

/-- `IGraphicBufferProducer::BUFFER_NEEDS_REALLOCATION` return flag. -/
def BUFFER_NEEDS_REALLOCATION : Int := 1

/-- `BufferHubProducer::kNoConnectedApi`. -/
def kNoConnectedApi : Int := -1

/-- `BufferHubQueue::kMaxQueueCapacity`.  Modelled from the spec: the
producer slot table has a fixed capacity of 64 slots (the constant lives in
`buffer_hub_queue_client.h`, which is not among the sources). -/
def kMaxQueueCapacity : Nat := 64

/-- `BufferHubProducer::kDefaultUndequeuedBuffers`.  Modelled from the spec:
one reserved undequeued buffer (the constant lives in `BufferHubProducer.h`,
which is not among the sources). -/
def kDefaultUndequeuedBuffers : Int := 1

/-! ## ClientRegistry (BufferNode active-clients mask)

The implementation of `BufferNode::AddNewActiveClientsBitToMask` and
`BufferNode::RemoveClientsBitFromMask` is not among the sources (only the
test `buffer_node-test.cpp` is), so the registry is modelled from the spec.
-/

namespace BufferNode

/-- Modelled from the spec: `acquire_bit()` / `AddNewActiveClientsBitToMask`.
Scans from bit 0 upward for the first zero bit in `active_clients_mask`,
sets it, and returns the bit value (not the index) together with the new
mask.  Returns `none` when all 64 bits are taken (the C++ returns `0` and
sets `errno` to `E2BIG`); in that case the mask is unchanged. -/
def AddNewActiveClientsBitToMask (active_clients_mask : Nat) :
    Option (Nat × Nat) :=
  match (List.range 64).find? (fun i => ! active_clients_mask.testBit i) with
  | some i => some (2 ^ i, active_clients_mask ||| 2 ^ i)
  | none => none

/-- Bitwise complement within the 64-bit mask word. -/
def complement64 (bit : Nat) : Nat := (2 ^ 64 - 1) ^^^ (bit &&& (2 ^ 64 - 1))

/-- Modelled from the spec: `release_bit(bit)` / `RemoveClientsBitFromMask`
clears the bit with `fetch_and(~bit)` on the 64-bit mask word; clearing an
already-clear bit is a no-op, not an error. -/
def RemoveClientsBitFromMask (active_clients_mask bit : Nat) : Nat :=
  active_clients_mask &&& complement64 bit

/-- The mask after the registry step `acquire_bit` (a failed acquisition
leaves the mask unchanged, as in the C++). -/
def acquireStep (mask : Nat) : Nat :=
  match AddNewActiveClientsBitToMask mask with
  | some (_, m) => m
  | none => mask

/-- Mask after `n` consecutive `acquire_bit` calls starting from the empty
registry. -/
def iterAcquire : Nat → Nat
  | 0 => 0
  | n + 1 => acquireStep (iterAcquire n)

/-- A registry operation: one `acquire_bit` call or one `release_bit` call. -/
inductive RegOp where
  | acquire : RegOp
  | release (bit : Nat) : RegOp
deriving DecidableEq, Repr

/-- Run a sequence of registry operations from the empty mask. -/
def registryRun : List RegOp → Nat
  | [] => 0
  | op :: rest =>
      let m := registryRun rest
      match op with
      | .acquire => acquireStep m
      | .release bit => RemoveClientsBitFromMask m bit

end BufferNode

/-! ## OwnershipState: the `Gain` transition

`BufferHubBuffer::Gain` / `ProducerBuffer::Gain` implementations are not
among the sources (only the headers `BufferHubBuffer.h` and
`producer_buffer.h` are), so the transition is modelled from the spec. -/

inductive GainResult where
  | notReleased : GainResult
  | gained (newMask : Nat) : GainResult
deriving DecidableEq, Repr

/-- Modelled from the spec: `Gain` (producer only): precondition — no other
client bit may be set in the ownership mask.  On success, set bit `b`.
Fails with `NotReleased` if another bit remains set. -/
def Gain (ownership_mask bit : Nat) : GainResult :=
  if ownership_mask &&& BufferNode.complement64 bit ≠ 0 then .notReleased
  else .gained (ownership_mask ||| bit)

end BufferHubV

namespace BufferHubV

/-! ## Helper lemmas on bit masks -/

theorem find?_range'_eq_some {p : Nat → Bool} (k : Nat) :
    ∀ (s n : Nat), s ≤ k → k < s + n → p k = true →
    (∀ j, s ≤ j → j < k → p j = false) →
    (List.range' s n).find? p = some k := by
  intro s n
  induction n generalizing s with
  | zero => omega
  | succ n ih =>
    intro hsk hk hp hbelow
    rw [List.range'_succ, List.find?_cons]
    rcases Nat.eq_or_lt_of_le hsk with heq | hlt
    · subst heq
      simp [hp]
    · have hps : p s = false := hbelow s (Nat.le_refl s) hlt
      simp only [hps]
      exact ih (s + 1) hlt (by omega) hp (fun j hj hj' => hbelow j (by omega) hj')

theorem find?_range_eq_some {p : Nat → Bool} (k m : Nat) (hk : k < m)
    (hp : p k = true) (hbelow : ∀ j, j < k → p j = false) :
    (List.range m).find? p = some k := by
  rw [List.range_eq_range']
  exact find?_range'_eq_some k 0 m (Nat.zero_le k) (by omega) hp
    (fun j _ hj => hbelow j hj)

/-- On the mask with exactly the low `n` bits set, `acquire_bit` finds bit
`n` (for `n < 64`) and produces the mask with the low `n+1` bits set. -/
theorem addNewBit_two_pow_sub_one {n : Nat} (hn : n < 64) :
    BufferNode.AddNewActiveClientsBitToMask (2 ^ n - 1) =
      some (2 ^ n, 2 ^ (n + 1) - 1) := by
  have hfind : (List.range 64).find? (fun i => ! (2 ^ n - 1).testBit i) =
      some n := by
    apply find?_range_eq_some n 64 hn
    · simp
    · intro j hj
      simp [hj]
  rw [BufferNode.AddNewActiveClientsBitToMask, hfind]
  have hor : (2 ^ n - 1) ||| 2 ^ n = 2 ^ (n + 1) - 1 := by
    apply Nat.eq_of_testBit_eq
    intro i
    rcases Nat.lt_trichotomy i n with h | h | h
    · simp [h, Nat.lt_succ_of_lt h, Nat.ne_of_gt h]
    · subst h
      simp
    · have h1 : ¬ i < n := by omega
      have h2 : ¬ i < n + 1 := by omega
      have h3 : n ≠ i := by omega
      simp [h1, h2, h3]
  simp [hor]

theorem iterAcquire_eq {n : Nat} (hn : n ≤ 64) :
    BufferNode.iterAcquire n = 2 ^ n - 1 := by
  induction n with
  | zero => rfl
  | succ n ih =>
    have hn' : n < 64 := by omega
    rw [BufferNode.iterAcquire, ih (by omega), BufferNode.acquireStep,
      addNewBit_two_pow_sub_one hn']

theorem addNewBit_full :
    BufferNode.AddNewActiveClientsBitToMask (2 ^ 64 - 1) = none := by
  rw [BufferNode.AddNewActiveClientsBitToMask]
  have : (List.range 64).find? (fun i => ! (2 ^ 64 - 1).testBit i) = none := by
    rw [List.find?_eq_none]
    intro i hi
    simp only [List.mem_range] at hi
    simp only [Nat.testBit_two_pow_sub_one]
    simp [hi]
  rw [this]

/-- Any successful `acquire_bit` on any mask returns a bit disjoint from the
mask, and the new mask is the union of the old mask and the bit. -/
theorem addNewBit_spec {m bit m' : Nat}
    (h : BufferNode.AddNewActiveClientsBitToMask m = some (bit, m')) :
    bit &&& m = 0 ∧ m' = m ||| bit := by
  unfold BufferNode.AddNewActiveClientsBitToMask at h
  cases hfind : (List.range 64).find? (fun i => ! m.testBit i) with
  | none => rw [hfind] at h; simp at h
  | some i =>
    rw [hfind] at h
    simp only [Option.some.injEq, Prod.mk.injEq] at h
    obtain ⟨hbit, hm'⟩ := h
    have hp := List.find?_some hfind
    simp only [Bool.not_eq_eq_eq_not, Bool.not_true] at hp
    subst hbit
    refine ⟨?_, hm'.symm⟩
    apply Nat.eq_of_testBit_eq
    intro j
    simp only [Nat.testBit_and, Nat.zero_testBit, Nat.testBit_two_pow]
    rcases eq_or_ne i j with rfl | hij
    · simp [hp]
    · simp [hij]

/-! ## Claim theorems C2, C6, C7, C9 -/

/-- C2: starting from an empty registry, the first 64 `acquire_bit` calls
succeed, the 65th fails with the capacity error (`none`, modelling the C++
returning `0` with `errno = E2BIG`), the mask is left unchanged by the
failing call, and it has exactly 64 bits set. -/
theorem c2_sixtyfifth_acquire_fails :
    (∀ n, n < 64 →
      (BufferNode.AddNewActiveClientsBitToMask
        (BufferNode.iterAcquire n)).isSome = true) ∧
    BufferNode.AddNewActiveClientsBitToMask (BufferNode.iterAcquire 64)
      = none ∧
    BufferNode.acquireStep (BufferNode.iterAcquire 64)
      = BufferNode.iterAcquire 64 ∧
    (List.range 64).countP
      (fun i => (BufferNode.iterAcquire 64).testBit i) = 64 := by
  have h64 : BufferNode.iterAcquire 64 = 2 ^ 64 - 1 :=
    iterAcquire_eq (Nat.le_refl 64)
  refine ⟨?_, ?_, ?_, ?_⟩
  · intro n hn
    rw [iterAcquire_eq (Nat.le_of_lt hn), addNewBit_two_pow_sub_one hn]
    rfl
  · rw [h64, addNewBit_full]
  · rw [BufferNode.acquireStep, h64, addNewBit_full]
  · rw [h64]
    have : ∀ i ∈ List.range 64, ((2 ^ 64 - 1 : Nat).testBit i) = true := by
      intro i hi
      simp only [List.mem_range] at hi
      simp only [Nat.testBit_two_pow_sub_one]
      simp [hi]
    rw [List.countP_eq_length.mpr this, List.length_range]

/-- Concrete instantiation of `c2_sixtyfifth_acquire_fails`'s bounded
universal at `n = 0`. -/
theorem c2_sixtyfifth_acquire_fails_witness :
    (BufferNode.AddNewActiveClientsBitToMask
      (BufferNode.iterAcquire 0)).isSome = true :=
  c2_sixtyfifth_acquire_fails.1 0 (by decide)

/-- C6: along every sequence of `acquire_bit`/`release_bit` operations, a
successful `acquire_bit` returns a bit that is disjoint from the current
mask (never a bit already held by a live client), and the mask after the
call is the union of the previous mask and the returned bit. -/
theorem c6_acquire_bit_disjoint_union :
    ∀ (ops : List BufferHubV.BufferNode.RegOp) (bit m' : Nat),
      BufferNode.AddNewActiveClientsBitToMask (BufferNode.registryRun ops)
        = some (bit, m') →
      bit &&& BufferNode.registryRun ops = 0 ∧
      m' = BufferNode.registryRun ops ||| bit :=
  fun _ _ _ h => addNewBit_spec h

/-- Concrete instantiation of `c6_acquire_bit_disjoint_union` on the empty
operation sequence. -/
theorem c6_acquire_bit_disjoint_union_witness :
    (1 : Nat) &&& BufferNode.registryRun [] = 0 ∧
    (1 : Nat) = BufferNode.registryRun [] ||| 1 :=
  c6_acquire_bit_disjoint_union [] 1 1 (by decide)

/-- C7: `release_bit` is idempotent — releasing the same bit twice leaves
the mask identical to a single release — and releasing an already-clear bit
of a 64-bit mask is a no-op. -/
theorem c7_release_bit_idempotent :
    (∀ m b, BufferNode.RemoveClientsBitFromMask
        (BufferNode.RemoveClientsBitFromMask m b) b
      = BufferNode.RemoveClientsBitFromMask m b) ∧
    (∀ m i, m < 2 ^ 64 → i < 64 → m.testBit i = false →
      BufferNode.RemoveClientsBitFromMask m (2 ^ i) = m) := by
  constructor
  · intro m b
    apply Nat.eq_of_testBit_eq
    intro j
    simp only [BufferNode.RemoveClientsBitFromMask, Nat.testBit_and]
    cases m.testBit j <;> cases (BufferNode.complement64 b).testBit j <;> rfl
  · intro m i hm hi hbit
    apply Nat.eq_of_testBit_eq
    intro j
    simp only [BufferNode.RemoveClientsBitFromMask, BufferNode.complement64,
      Nat.testBit_and, Nat.testBit_xor, Nat.testBit_two_pow_sub_one,
      Nat.testBit_two_pow]
    by_cases hj : j < 64
    · rcases eq_or_ne i j with rfl | hij
      · simp [hbit]
      · simp [hj, hij]
    · have : m.testBit j = false := by
        apply Nat.testBit_lt_two_pow
        calc m < 2 ^ 64 := hm
          _ ≤ 2 ^ j := Nat.pow_le_pow_right (by omega) (by omega)
      simp [this]

/-- Concrete instantiation of `c7_release_bit_idempotent`: releasing bit 0
of the mask `2` (bit 0 already clear) is a no-op. -/
theorem c7_release_bit_idempotent_witness :
    BufferNode.RemoveClientsBitFromMask 2 (2 ^ 0) = 2 :=
  c7_release_bit_idempotent.2 2 0 (by decide) (by decide) (by decide)

/-- C9: `Gain` for the producer client with bit `2 ^ i` fails with
`NotReleased` while any other client's bit is set in the ownership mask,
and succeeds (setting bit `i`, taking exclusive write ownership) once all
other bits are clear. -/
theorem c9_gain_not_released :
    ∀ (mask i : Nat),
      ((∃ j, j < 64 ∧ j ≠ i ∧ mask.testBit j = true) →
        Gain mask (2 ^ i) = .notReleased) ∧
      ((∀ j, j ≠ i → mask.testBit j = false) →
        Gain mask (2 ^ i) = .gained (mask ||| 2 ^ i)) := by
  intro mask i
  constructor
  · rintro ⟨j, hj64, hji, hbit⟩
    rw [Gain, if_pos]
    intro hzero
    have := congrArg (fun x => x.testBit j) hzero
    simp only [Nat.testBit_and, Nat.zero_testBit,
      BufferNode.complement64, Nat.testBit_xor,
      Nat.testBit_two_pow_sub_one, Nat.testBit_two_pow, hbit] at this
    simp [hj64, Ne.symm hji] at this
  · intro hclear
    rw [Gain, if_neg]
    simp only [ne_eq, Decidable.not_not]
    apply Nat.eq_of_testBit_eq
    intro j
    simp only [Nat.testBit_and, Nat.zero_testBit, BufferNode.complement64,
      Nat.testBit_xor, Nat.testBit_two_pow_sub_one, Nat.testBit_two_pow]
    rcases eq_or_ne i j with rfl | hij
    · by_cases hj : i < 64 <;> simp [hj]
    · simp [hclear j (Ne.symm hij)]

/-- Concrete instantiation of `c9_gain_not_released`: with mask `2` (client
bit 1 held) the producer with bit 0 cannot gain; with the empty mask it
gains bit 3. -/
theorem c9_gain_not_released_witness :
    Gain 2 (2 ^ 0) = .notReleased ∧
    Gain 0 (2 ^ 3) = .gained (0 ||| 2 ^ 3) :=
  ⟨(c9_gain_not_released 2 0).1 ⟨1, by decide, by decide, by decide⟩,
   (c9_gain_not_released 0 3).2 (fun j _ => Nat.zero_testBit j)⟩

/-! ## Per-slot buffer state machine -/

/-- Modelled from the spec: the per-slot state machine
`Free → Dequeued → Queued → Free` (libgui `BufferSlot::BufferState` is not
among the sources). -/
inductive BufferState where
  | free : BufferState
  | dequeued : BufferState
  | queued : BufferState
deriving DecidableEq, Repr

namespace BufferState

def isFree : BufferState → Bool
  | free => true
  | _ => false

def isDequeued : BufferState → Bool
  | dequeued => true
  | _ => false

def isQueued : BufferState → Bool
  | queued => true
  | _ => false

/-- `BufferState::dequeue()`. -/
def dequeue (_ : BufferState) : BufferState := dequeued

/-- `BufferState::freeQueued()`: a queued slot becomes free. -/
def freeQueued : BufferState → BufferState
  | queued => free
  | s => s

/-- `BufferState::queue()`. -/
def queue (_ : BufferState) : BufferState := queued

/-- `BufferState::cancel()`: a dequeued slot becomes free. -/
def cancel (_ : BufferState) : BufferState := free

/-- `BufferState::detachProducer()`. -/
def detachProducer : BufferState → BufferState
  | dequeued => free
  | s => s

/-- `BufferState::attachProducer()`. -/
def attachProducer (_ : BufferState) : BufferState := dequeued

/-- `BufferState::reset()`. -/
def reset (_ : BufferState) : BufferState := free

end BufferState

/-! ## Buffers, fences, rectangles -/

/-- A sync fence handle; `valid` mirrors `Fence::isValid()`. -/
structure Fence where
  valid : Bool
deriving DecidableEq, Repr

/-- `Fence::NO_FENCE`. -/
def noFence : Fence := ⟨false⟩

/-- A `dvr::BufferProducer` client-side buffer: identity plus the geometry
and format of the underlying graphics buffer. -/
structure BufferProducerB where
  id : Nat
  width : Nat
  height : Nat
  format : Nat
deriving DecidableEq, Repr

/-- The `GraphicBuffer` reference handed out by `requestBuffer`; it carries
the identity and descriptor of the producer buffer it came from. -/
structure GraphicBufferB where
  id : Nat
  width : Nat
  height : Nat
  format : Nat
deriving DecidableEq, Repr

/-- `buffer_producer->buffer()->buffer()`: the `GraphicBuffer` backing a
producer buffer. -/
def BufferProducerB.buffer (bp : BufferProducerB) : GraphicBufferB :=
  ⟨bp.id, bp.width, bp.height, bp.format⟩

/-- `ui::Rect`. -/
structure Rect where
  left : Int
  top : Int
  right : Int
  bottom : Int
deriving DecidableEq, Repr

/-- Modelled from the spec: `Rect::intersect` computes the componentwise
max/min rectangle (`ui/Rect.cpp` is not among the sources); `queueBuffer`
compares the intersection with the crop to reject crops not fully contained
in the buffer bounds. -/
def Rect.intersect (a b : Rect) : Rect :=
  ⟨max a.left b.left, max a.top b.top, min a.right b.right,
   min a.bottom b.bottom⟩

/-! ## The ProducerQueue collaborator -/

/-- Modelled from the spec: the `dvr::ProducerQueue` collaborator — a slot
table of up to `kMaxQueueCapacity` buffers plus a FIFO ready list of slots
available for dequeue (`buffer_hub_queue_client.cpp` is not among the
sources). -/
structure ProducerQueue where
  slots : List (Option BufferProducerB)
  ready : List Nat
  nextId : Nat
deriving DecidableEq, Repr

namespace ProducerQueue

/-- `ProducerQueue::GetBuffer(slot)`. -/
def GetBuffer (q : ProducerQueue) (slot : Nat) : Option BufferProducerB :=
  q.slots.getD slot none

/-- `BufferHubQueue::capacity()`: number of buffers currently allocated
into the queue. -/
def capacity (q : ProducerQueue) : Nat := q.slots.countP (fun b => b.isSome)

/-- `BufferHubQueue::Dequeue(timeout, &slot, &fence)`: pop the next ready
slot; `none` models a timeout with no slot becoming ready.  Returns the
slot index, the buffer bound to it, and the queue after the pop. -/
def Dequeue (q : ProducerQueue) :
    Option (Nat × Option BufferProducerB × ProducerQueue) :=
  match q.ready with
  | [] => none
  | s :: rest => some (s, q.GetBuffer s, { q with ready := rest })

/-- Write slot `i` of a slot table, extending it with empty slots first if
it is shorter than `i + 1`. -/
def setSlot (l : List (Option BufferProducerB)) (i : Nat)
    (v : Option BufferProducerB) : List (Option BufferProducerB) :=
  (l ++ List.replicate (i + 1 - l.length) none).set i v

/-- First slot index not bound to a buffer. -/
def firstFreeSlot (q : ProducerQueue) : Option Nat :=
  (List.range kMaxQueueCapacity).find? (fun i => (q.slots.getD i none).isNone)

/-- `ProducerQueue::AllocateBuffer`: allocate a buffer of the requested
geometry into the first free slot and push that slot onto the ready list;
fails when the slot table is full. -/
def AllocateBuffer (q : ProducerQueue) (w h fmt : Nat) :
    Option (Nat × ProducerQueue) :=
  match q.firstFreeSlot with
  | none => none
  | some s => some (s,
      { slots := setSlot q.slots s (some ⟨q.nextId, w, h, fmt⟩)
        ready := q.ready ++ [s]
        nextId := q.nextId + 1 })

/-- The slot table with `slot` unbound. -/
def removeSlot (q : ProducerQueue) (slot : Nat) : ProducerQueue :=
  { q with slots := q.slots.set slot none }

/-- `ProducerQueue::RemoveBuffer(slot)`: remove the buffer bound to the
slot from the table. -/
def RemoveBuffer (q : ProducerQueue) (slot : Nat) : Option ProducerQueue :=
  if (q.slots.getD slot none).isSome then some (q.removeSlot slot)
  else none

/-- `BufferHubQueue::Enqueue`: return a slot to the ready list. -/
def Enqueue (q : ProducerQueue) (slot : Nat) : ProducerQueue :=
  { q with ready := q.ready ++ [slot] }

end ProducerQueue

/-! ## BufferHubProducer state (from `BufferHubProducer.cpp` in the sources) -/

/-- One entry of `BufferHubProducer::buffers_` (a `BufferHubSlot`). -/
structure BufferHubSlot where
  mBufferProducer : Option BufferProducerB
  mGraphicBuffer : Option GraphicBufferB
  mBufferState : BufferState
  mFence : Fence
  mRequestBufferCalled : Bool
  mIsReallocating : Bool
deriving DecidableEq, Repr

/-- The slot after `mBufferState.freeQueued(); mBufferState.dequeue()` in
`dequeueBuffer`'s post-loop code. -/
def BufferHubSlot.toDequeued (b : BufferHubSlot) : BufferHubSlot :=
  { b with mBufferState := b.mBufferState.freeQueued.dequeue }

/-- The slot after `mIsReallocating = false`. -/
def BufferHubSlot.clearRealloc (b : BufferHubSlot) : BufferHubSlot :=
  { b with mIsReallocating := false }

/-- The slot after `mIsReallocating = true` (the mark set by the mismatch
branch of `dequeueBuffer`'s loop). -/
def BufferHubSlot.markRealloc (b : BufferHubSlot) : BufferHubSlot :=
  { b with mIsReallocating := true }

/-- The slot after `mBufferState.cancel(); mFence = fence` in
`cancelBuffer`. -/
def BufferHubSlot.cancelled (b : BufferHubSlot) (f : Fence) : BufferHubSlot :=
  { b with mBufferState := b.mBufferState.cancel, mFence := f }

/-- The slot after `mBufferState.queue()` in `queueBuffer`. -/
def BufferHubSlot.toQueued (b : BufferHubSlot) : BufferHubSlot :=
  { b with mBufferState := b.mBufferState.queue }

/-- The in-memory slot reset performed by `BufferHubProducer::RemoveBuffer`. -/
def BufferHubSlot.detached (b : BufferHubSlot) : BufferHubSlot :=
  { b with
    mBufferProducer := none
    mBufferState := b.mBufferState.detachProducer
    mFence := noFence
    mGraphicBuffer := none
    mRequestBufferCalled := false }

/-- A fresh, unbound slot. -/
def emptySlot : BufferHubSlot := ⟨none, none, .free, noFence, false, false⟩

/-- The `BufferHubProducer` adapter state. -/
structure BufferHubProducer where
  queue_ : ProducerQueue
  buffers_ : List BufferHubSlot
  connected_api_ : Int
  max_dequeued_buffer_count_ : Int
  max_buffer_count_ : Int
deriving DecidableEq, Repr

/-- A plain (status, state) operation result. -/
structure OpOut where
  code : Int
  st : BufferHubProducer
deriving DecidableEq, Repr

namespace BufferHubProducer

/-- `buffers_[slot]`. -/
def slotAt (st : BufferHubProducer) (slot : Nat) : BufferHubSlot :=
  st.buffers_.getD slot emptySlot

/-- `buffers_[slot] = b`. -/
def setSlotAt (st : BufferHubProducer) (slot : Nat) (b : BufferHubSlot) :
    BufferHubProducer :=
  { st with buffers_ := st.buffers_.set slot b }

/-- Replace the producer's queue client. -/
def setQueue (st : BufferHubProducer) (q : ProducerQueue) : BufferHubProducer :=
  { st with queue_ := q }

/-- `BufferHubProducer::requestBuffer` result: status, the out `GraphicBuffer`,
and the state after the call. -/
structure RequestOut where
  code : Int
  buf : Option GraphicBufferB
  st : BufferHubProducer
deriving DecidableEq, Repr

/-- `BufferHubProducer::requestBuffer(slot, &buf)`. -/
def requestBuffer (st : BufferHubProducer) (slot : Int) : RequestOut :=
  if st.connected_api_ = kNoConnectedApi then ⟨NO_INIT, none, st⟩
  else if slot < 0 ∨ st.max_buffer_count_ ≤ slot then ⟨BAD_VALUE, none, st⟩
  else
    let b := st.slotAt slot.toNat
    if ¬ b.mBufferState.isDequeued then ⟨BAD_VALUE, none, st⟩
    else if b.mGraphicBuffer.isSome then ⟨BAD_VALUE, none, st⟩
    else match b.mBufferProducer with
      | none => ⟨BAD_VALUE, none, st⟩
      | some bp =>
        let g := bp.buffer
        let b' := { b with
          mGraphicBuffer := some g
          mRequestBufferCalled := true }
        ⟨NO_ERROR, some g,
         { st with buffers_ := st.buffers_.set slot.toNat b' }⟩

/-- Count of slots currently in `Dequeued` state (the loop over `buffers_`
in `setMaxDequeuedBufferCount`). -/
def dequeuedCount (st : BufferHubProducer) : Int :=
  ((st.buffers_.filter (fun b => b.mBufferState.isDequeued)).length : Int)

/-- `BufferHubProducer::setMaxDequeuedBufferCount`. -/
def setMaxDequeuedBufferCount (st : BufferHubProducer)
    (max_dequeued_buffers : Int) : OpOut :=
  if max_dequeued_buffers ≤ 0 ∨
      max_dequeued_buffers >
        (kMaxQueueCapacity : Int) - kDefaultUndequeuedBuffers then
    ⟨BAD_VALUE, st⟩
  else if st.dequeuedCount > max_dequeued_buffers then ⟨BAD_VALUE, st⟩
  else ⟨NO_ERROR,
    { st with max_dequeued_buffer_count_ := max_dequeued_buffers }⟩

/-- Result of a step that may hit a `LOG_ALWAYS_FATAL` abort. -/
inductive StRes where
  | fatal (st : BufferHubProducer) : StRes
  | res (code : Int) (st : BufferHubProducer) : StRes
deriving DecidableEq, Repr

/-- The producer state carried by a `StRes`. -/
def StRes.stOf : StRes → BufferHubProducer
  | .fatal s => s
  | .res _ s => s

/-- `BufferHubProducer::AllocateBuffer`: allocate through the queue and
record the producer buffer in `buffers_[slot].mBufferProducer`; the
`LOG_ALWAYS_FATAL_IF` on a null producer is the `fatal` branch. -/
def AllocateBuffer (st : BufferHubProducer) (w h _layer_count fmt _usage : Nat) :
    StRes :=
  match st.queue_.AllocateBuffer w h fmt with
  | none => .res NO_MEMORY st
  | some (slot, q') =>
    match q'.GetBuffer slot with
    | none => .fatal { st with queue_ := q' }
    | some bp =>
      let b := st.slotAt slot
      .res NO_ERROR
        { st with
          queue_ := q'
          buffers_ := st.buffers_.set slot
            { b with mBufferProducer := some bp } }

/-- `BufferHubProducer::RemoveBuffer(slot)`: remove from the queue, then
reset the in-memory slot (`mBufferProducer = nullptr`,
`mBufferState.detachProducer()`, `mFence = NO_FENCE`,
`mGraphicBuffer = nullptr`, `mRequestBufferCalled = false`). -/
def RemoveBuffer (st : BufferHubProducer) (slot : Nat) : OpOut :=
  match st.queue_.RemoveBuffer slot with
  | none => ⟨INVALID_OPERATION, st⟩
  | some q' =>
    ⟨NO_ERROR, (st.setSlotAt slot (st.slotAt slot).detached).setQueue q'⟩

/-- The mismatch branch of `dequeueBuffer`'s loop as a state transformer:
mark the popped slot reallocating (`mIsReallocating = true`), remove its
buffer (return value ignored in the source), and allocate a replacement of
the requested geometry.  `dequeueLoop` reduces to this step on a
geometry/format mismatch (`dequeueLoop_mismatch`). -/
def reallocStep (width height format usage slot : Nat)
    (st1 : BufferHubProducer) : StRes :=
  (((st1.setSlotAt slot (st1.slotAt slot).markRealloc).RemoveBuffer
      slot).st).AllocateBuffer width height 1 format usage

/-- Result of the pop-and-check loop in `dequeueBuffer`, with the number of
loop iterations executed. -/
inductive LoopRes where
  | fail (code : Int) (st : BufferHubProducer) (iters : Nat) : LoopRes
  | fatalLoop (st : BufferHubProducer) (iters : Nat) : LoopRes
  | done (slot : Nat) (st : BufferHubProducer) (iters : Nat) : LoopRes
deriving DecidableEq, Repr

/-- Number of loop iterations a loop result records. -/
def LoopRes.iters : LoopRes → Nat
  | .fail _ _ i => i
  | .fatalLoop _ i => i
  | .done _ _ i => i

/-- Account for one more executed loop iteration. -/
def LoopRes.bump : LoopRes → LoopRes
  | .fail c s i => .fail c s (i + 1)
  | .fatalLoop s i => .fatalLoop s (i + 1)
  | .done sl s i => .done sl s (i + 1)

/-- The `for (retry = 0; retry < kMaxQueueCapacity; retry++)` loop of
`dequeueBuffer`: pop a ready slot; on geometry/format match exit with that
slot; on mismatch mark the slot reallocating, remove its buffer (the return
value of `RemoveBuffer` is ignored in the source), allocate a replacement of
the requested geometry, and retry.  When the retry budget is exhausted the
source falls through to the post-loop code with the last popped slot. -/
def dequeueLoop (width height format usage : Nat) :
    Nat → BufferHubProducer → Nat → LoopRes
  | 0, st, lastSlot => .done lastSlot st 0
  | fuel + 1, st, _ =>
    match st.queue_.Dequeue with
    | none => .fail NO_MEMORY st 1
    | some (slot, obp, q') =>
      match obp with
      | none => .fail NO_MEMORY (st.setQueue q') 1
      | some bp =>
        if width = bp.width ∧ height = bp.height ∧ format = bp.format then
          .done slot (st.setQueue q') 1
        else
          match reallocStep width height format usage slot
              (st.setQueue q') with
          | .fatal st4 => .fatalLoop st4 1
          | .res code st4 =>
            if code < 0 then .fail code st4 1
            else (dequeueLoop width height format usage fuel st4 slot).bump

/-- Result of `dequeueBuffer`: a `LOG_ALWAYS_FATAL` abort, an error return,
or success with the return code (which may carry
`BUFFER_NEEDS_REALLOCATION`) and the out slot. -/
inductive DQRes where
  | fatal (st : BufferHubProducer) : DQRes
  | err (code : Int) (st : BufferHubProducer) : DQRes
  | ok (code : Int) (slot : Nat) (st : BufferHubProducer) : DQRes
deriving DecidableEq, Repr

/-- The post-loop tail of `dequeueBuffer`: the `LOG_ALWAYS_FATAL_IF` check
that the popped slot is Free or Queued, the `freeQueued(); dequeue()` state
transition, and the `ret |= BUFFER_NEEDS_REALLOCATION` flag handling
(`NO_ERROR ||| BUFFER_NEEDS_REALLOCATION = 1`), which clears the slot's
reallocating mark when the flag is returned. -/
def dequeueFinish (slot : Nat) (st2 : BufferHubProducer) : DQRes :=
  if (st2.slotAt slot).mBufferState.isFree
      || (st2.slotAt slot).mBufferState.isQueued then
    if (st2.slotAt slot).mIsReallocating then
      .ok BUFFER_NEEDS_REALLOCATION slot
        (st2.setSlotAt slot ((st2.slotAt slot).toDequeued.clearRealloc))
    else
      .ok NO_ERROR slot (st2.setSlotAt slot (st2.slotAt slot).toDequeued)
  else .fatal st2

/-- `BufferHubProducer::dequeueBuffer(&slot, &fence, w, h, format, usage)`:
the connected-producer check, the lazy allocation below the
`max_dequeued_buffer_count_ + kDefaultUndequeuedBuffers` threshold, the
pop-and-check loop, and the post-loop tail. -/
def dequeueBuffer (st : BufferHubProducer)
    (width height format usage : Nat) : DQRes :=
  if st.connected_api_ = kNoConnectedApi then .err NO_INIT st
  else
    match
      (if (st.queue_.capacity : Int) <
          st.max_dequeued_buffer_count_ + kDefaultUndequeuedBuffers then
        st.AllocateBuffer width height 1 format usage
      else .res NO_ERROR st) with
    | .fatal st' => .fatal st'
    | .res code st1 =>
      if code < 0 then .err code st1
      else
        match dequeueLoop width height format usage kMaxQueueCapacity st1 0 with
        | .fail c st' _ => .err c st'
        | .fatalLoop st' _ => .fatal st'
        | .done slot st2 _ => dequeueFinish slot st2

/-- `NATIVE_WINDOW_SCALING_MODE_*` constants. -/
def NATIVE_WINDOW_SCALING_MODE_FREEZE : Int := 0

def NATIVE_WINDOW_SCALING_MODE_SCALE_TO_WINDOW : Int := 1

def NATIVE_WINDOW_SCALING_MODE_SCALE_CROP : Int := 2

def NATIVE_WINDOW_SCALING_MODE_NO_SCALE_CROP : Int := 3

/-- The deflated `QueueBufferInput` fields. -/
structure QueueBufferInput where
  timestamp : Int
  isAutoTimestamp : Bool
  dataspace : Int
  crop : Rect
  scalingMode : Int
  transform : Int
  fence : Option Fence
deriving DecidableEq, Repr

/-- The `DvrNativeBufferMetadata` record a successful `queueBuffer` posts
(the `PostAsync` payload), together with the posted buffer's identity. -/
structure PostRecord where
  bufferId : Nat
  timestamp : Int
  isAutoTimestamp : Bool
  dataspace : Int
  cropLeft : Int
  cropTop : Int
  cropRight : Int
  cropBottom : Int
  scalingMode : Int
  transform : Int
deriving DecidableEq, Repr

/-- The `QueueBufferOutput` fields filled in by `queueBuffer`. -/
structure QueueOutput where
  width : Nat
  height : Nat
  transformHint : Int
  numPendingBuffers : Nat
  nextFrameNumber : Nat
deriving DecidableEq, Repr

/-- Result of `queueBuffer`: `crash` models the C++ dereferencing a null
`buffers_[slot].mBufferProducer`; otherwise the status, the state after the
call, the `PostAsync` payload (`none` when no Post was performed) and the
output block. -/
inductive QBRes where
  | crash (st : BufferHubProducer) : QBRes
  | res (code : Int) (st : BufferHubProducer) (posted : Option PostRecord)
      (output : Option QueueOutput) : QBRes
deriving DecidableEq, Repr

/-- The `DvrNativeBufferMetadata` filled in by `queueBuffer` before
`PostAsync`. -/
def postedMetaOf (input : QueueBufferInput) (bp : BufferProducerB) :
    PostRecord :=
  ⟨bp.id, input.timestamp, input.isAutoTimestamp, input.dataspace,
   input.crop.left, input.crop.top, input.crop.right, input.crop.bottom,
   input.scalingMode, input.transform⟩

/-- `BufferHubProducer::queueBuffer(slot, input, &output)`. -/
def queueBuffer (st : BufferHubProducer) (slot : Int)
    (input : QueueBufferInput) : QBRes :=
  if ¬ (input.scalingMode = NATIVE_WINDOW_SCALING_MODE_FREEZE ∨
        input.scalingMode = NATIVE_WINDOW_SCALING_MODE_SCALE_TO_WINDOW ∨
        input.scalingMode = NATIVE_WINDOW_SCALING_MODE_SCALE_CROP ∨
        input.scalingMode = NATIVE_WINDOW_SCALING_MODE_NO_SCALE_CROP) then
    .res BAD_VALUE st none none
  else match input.fence with
  | none => .res BAD_VALUE st none none
  | some _fence =>
    if st.connected_api_ = kNoConnectedApi then .res NO_INIT st none none
    else if slot < 0 ∨ st.max_buffer_count_ ≤ slot then
      .res BAD_VALUE st none none
    else if ¬ (st.slotAt slot.toNat).mBufferState.isDequeued then
      .res BAD_VALUE st none none
    else if ¬ (st.slotAt slot.toNat).mRequestBufferCalled ∨
        (st.slotAt slot.toNat).mGraphicBuffer = none then
      .res BAD_VALUE st none none
    else match (st.slotAt slot.toNat).mBufferProducer with
      | none => .crash st
      | some bp =>
        if input.crop.intersect ⟨0, 0, (bp.width : Int), (bp.height : Int)⟩
            ≠ input.crop then
          .res BAD_VALUE st none none
        else
          .res NO_ERROR
            (st.setSlotAt slot.toNat (st.slotAt slot.toNat).toQueued)
            (some (postedMetaOf input bp))
            (some ⟨bp.width, bp.height, 0, 0, 0⟩)

/-- `BufferHubProducer::cancelBuffer(slot, fence)`. -/
def cancelBuffer (st : BufferHubProducer) (slot : Int)
    (fence : Option Fence) : OpOut :=
  if st.connected_api_ = kNoConnectedApi then ⟨NO_INIT, st⟩
  else if slot < 0 ∨ st.max_buffer_count_ ≤ slot then ⟨BAD_VALUE, st⟩
  else if ¬ (st.slotAt slot.toNat).mBufferState.isDequeued then ⟨BAD_VALUE, st⟩
  else match fence with
    | none => ⟨BAD_VALUE, st⟩
    | some f =>
      ⟨NO_ERROR,
       ((st.setSlotAt slot.toNat ((st.slotAt slot.toNat).cancelled f)).setQueue
         (st.queue_.Enqueue slot.toNat))⟩

/-- `BufferHubProducer::DetachBufferLocked(slot)`.  The pdx channel detach
(`buffer_producer->Detach()`), `DetachedBufferHandle::Create` and
`GraphicBuffer::setDetachedBufferHandle` steps are modelled from the spec
as succeeding (the transport collaborator is out of scope and not among
the sources). -/
def DetachBufferLocked (st : BufferHubProducer) (slot : Nat) : OpOut :=
  if st.connected_api_ = kNoConnectedApi then ⟨NO_INIT, st⟩
  else if st.max_buffer_count_ ≤ (slot : Int) then ⟨BAD_VALUE, st⟩
  else
    let b := st.slotAt slot
    if ¬ b.mBufferState.isDequeued then ⟨BAD_VALUE, st⟩
    else if ¬ b.mRequestBufferCalled then ⟨BAD_VALUE, st⟩
    else match st.queue_.GetBuffer slot with
      | none => ⟨BAD_VALUE, st⟩
      | some _bp =>
        let r := st.RemoveBuffer slot
        if r.code ≠ NO_ERROR then r
        else ⟨NO_ERROR, r.st⟩

/-- The return code of a successful `dequeueBuffer`. -/
def DQRes.okCode : DQRes → Option Int
  | .ok c _ _ => some c
  | _ => none

/-- The out slot of a successful `dequeueBuffer`. -/
def DQRes.okSlot : DQRes → Option Nat
  | .ok _ s _ => some s
  | _ => none

/-- The producer state after a `dequeueBuffer` call. -/
def DQRes.stOf : DQRes → BufferHubProducer
  | .fatal s => s
  | .err _ s => s
  | .ok _ _ s => s

end BufferHubProducer

open BufferHubProducer

/-- Reading back the slot just written into a slot table. -/
theorem getD_set_self {α : Type} (l : List α) (i : Nat) (v d : α) :
    (l.set i v).getD i d = if i < l.length then v else d := by
  rw [List.getD_eq_getElem?_getD, List.getElem?_set, if_pos rfl]
  split <;> simp_all

/-- Writing one slot leaves the others unchanged. -/
theorem getD_set_ne {α : Type} (l : List α) (i j : Nat) (v d : α)
    (h : i ≠ j) : (l.set i v).getD j d = l.getD j d := by
  simp [List.getD_eq_getElem?_getD, List.getElem?_set_ne h]

/-- Reading back the slot just written by the padding write `setSlot`. -/
theorem getD_setSlot_self (l : List (Option BufferProducerB)) (i : Nat)
    (v : Option BufferProducerB) :
    (ProducerQueue.setSlot l i v).getD i none = v := by
  unfold ProducerQueue.setSlot
  have hlen : i < (l ++ List.replicate (i + 1 - l.length) none).length := by
    rw [List.length_append, List.length_replicate]
    omega
  rw [List.getD_eq_getElem?_getD, List.getElem?_set_self hlen]
  rfl

/-- The padding write `setSlot` leaves the other slots unchanged. -/
theorem getD_setSlot_ne (l : List (Option BufferProducerB)) (i j : Nat)
    (v : Option BufferProducerB) (hij : i ≠ j) :
    (ProducerQueue.setSlot l i v).getD j none = l.getD j none := by
  unfold ProducerQueue.setSlot
  rw [List.getD_eq_getElem?_getD, List.getElem?_set_ne hij]
  rcases Nat.lt_or_ge j l.length with hj | hj
  · rw [List.getElem?_append, if_pos hj, ← List.getD_eq_getElem?_getD]
  · rw [List.getElem?_append, if_neg (Nat.not_lt.mpr hj),
      List.getElem?_replicate, List.getD_eq_default _ _ hj]
    split
    · rfl
    · rfl

/-- A successful `dequeueFinish` returns the popped slot with its
reallocating mark cleared and a return code that is either
`BUFFER_NEEDS_REALLOCATION` or `NO_ERROR`. -/
theorem dequeueFinish_ok {slot slot' : Nat} {st2 stF : BufferHubProducer}
    {code : Int}
    (hok : BufferHubProducer.dequeueFinish slot st2 = .ok code slot' stF) :
    slot' = slot ∧ (stF.slotAt slot').mIsReallocating = false ∧
    (code = BUFFER_NEEDS_REALLOCATION ∨ code = NO_ERROR) := by
  unfold BufferHubProducer.dequeueFinish at hok
  split at hok
  · split at hok
    · rw [BufferHubProducer.DQRes.ok.injEq] at hok
      obtain ⟨hc, hs, hst⟩ := hok
      subst hc
      subst hs
      subst hst
      refine ⟨rfl, ?_, Or.inl rfl⟩
      simp only [BufferHubProducer.slotAt, BufferHubProducer.setSlotAt]
      rw [getD_set_self]
      split
      · rfl
      · rfl
    · rename_i hflag
      rw [BufferHubProducer.DQRes.ok.injEq] at hok
      obtain ⟨hc, hs, hst⟩ := hok
      subst hc
      subst hs
      subst hst
      refine ⟨rfl, ?_, Or.inr rfl⟩
      simp only [BufferHubProducer.slotAt, BufferHubProducer.setSlotAt]
      rw [getD_set_self]
      split
      · show (st2.slotAt slot).mIsReallocating = false
        simpa using hflag
      · rfl
  · simp at hok

/-- Reading back a slot just stored with `setSlotAt`. -/
theorem slotAt_setSlotAt_self (st : BufferHubProducer) (slot : Nat)
    (b : BufferHubSlot) (hin : slot < st.buffers_.length) :
    (st.setSlotAt slot b).slotAt slot = b := by
  unfold BufferHubProducer.setSlotAt BufferHubProducer.slotAt
  dsimp only
  rw [getD_set_self, if_pos hin]

/-- `setSlotAt` leaves other slots unchanged. -/
theorem slotAt_setSlotAt_ne (st : BufferHubProducer) (i j : Nat)
    (b : BufferHubSlot) (hij : i ≠ j) :
    (st.setSlotAt i b).slotAt j = st.slotAt j := by
  unfold BufferHubProducer.setSlotAt BufferHubProducer.slotAt
  dsimp only
  exact getD_set_ne _ _ _ _ _ hij

/-- A successful queue-level `RemoveBuffer` yields exactly the table with
the slot unbound. -/
theorem removeBuffer_some {q : ProducerQueue} {slot : Nat}
    {q' : ProducerQueue} (h : q.RemoveBuffer slot = some q') :
    q' = q.removeSlot slot := by
  unfold ProducerQueue.RemoveBuffer at h
  split at h
  · exact ((Option.some.injEq _ _).mp h).symm
  · simp at h

/-- `BufferHubProducer::RemoveBuffer` never touches any slot's
reallocating mark (the slot reset does not include `mIsReallocating`). -/
theorem RemoveBuffer_mark (st : BufferHubProducer) (slot j : Nat) :
    (((st.RemoveBuffer slot).st).slotAt j).mIsReallocating
      = (st.slotAt j).mIsReallocating := by
  unfold BufferHubProducer.RemoveBuffer
  cases hq : st.queue_.RemoveBuffer slot with
  | none => rfl
  | some q' =>
    dsimp only
    rcases eq_or_ne slot j with rfl | hne
    · unfold BufferHubProducer.setQueue BufferHubProducer.setSlotAt
        BufferHubProducer.slotAt
      dsimp only
      rw [getD_set_self]
      split
      · rfl
      · rename_i hout
        rw [List.getD_eq_default _ _ (Nat.le_of_not_lt hout)]
    · unfold BufferHubProducer.setQueue BufferHubProducer.setSlotAt
        BufferHubProducer.slotAt
      dsimp only
      rw [getD_set_ne _ _ _ _ _ hne]

/-- `BufferHubProducer::RemoveBuffer` preserves the queue's ready list and
allocation counter. -/
theorem RemoveBuffer_queue_pres (st : BufferHubProducer) (slot : Nat) :
    ((st.RemoveBuffer slot).st).queue_.ready = st.queue_.ready ∧
    ((st.RemoveBuffer slot).st).queue_.nextId = st.queue_.nextId := by
  unfold BufferHubProducer.RemoveBuffer
  cases hq : st.queue_.RemoveBuffer slot with
  | none => exact ⟨rfl, rfl⟩
  | some q' =>
    have h := removeBuffer_some hq
    subst h
    exact ⟨rfl, rfl⟩

/-- After `BufferHubProducer::RemoveBuffer`, the queue slot is unbound
(it either was removed, or was never bound). -/
theorem RemoveBuffer_unbinds (st : BufferHubProducer) (slot : Nat) :
    ((st.RemoveBuffer slot).st).queue_.GetBuffer slot = none := by
  unfold BufferHubProducer.RemoveBuffer
  cases hq : st.queue_.RemoveBuffer slot with
  | none =>
    unfold ProducerQueue.RemoveBuffer at hq
    split at hq
    · simp at hq
    · rename_i hns
      dsimp only
      unfold ProducerQueue.GetBuffer
      cases hgd : st.queue_.slots.getD slot none with
      | none => rfl
      | some v =>
        rw [hgd] at hns
        simp at hns
  | some q' =>
    have h := removeBuffer_some hq
    subst h
    dsimp only
    show (st.queue_.slots.set slot none).getD slot none = none
    rw [getD_set_self]
    split
    · rfl
    · rfl

/-- A successful `BufferHubProducer::AllocateBuffer` allocates a fresh
buffer of the requested geometry into some queue slot, appends that slot to
the ready list, leaves every other queue slot unchanged, and touches no
slot's reallocating mark. -/
theorem AllocateBuffer_succ_spec (w h lay f u : Nat)
    (st st4 : BufferHubProducer)
    (hsucc : st.AllocateBuffer w h lay f u = .res NO_ERROR st4) :
    ∃ s2, st4.queue_.GetBuffer s2 = some ⟨st.queue_.nextId, w, h, f⟩ ∧
      st4.queue_.ready = st.queue_.ready ++ [s2] ∧
      (∀ j, j ≠ s2 → st4.queue_.GetBuffer j = st.queue_.GetBuffer j) ∧
      (∀ j, (st4.slotAt j).mIsReallocating
        = (st.slotAt j).mIsReallocating) := by
  unfold BufferHubProducer.AllocateBuffer at hsucc
  split at hsucc
  · rw [BufferHubProducer.StRes.res.injEq] at hsucc
    exact absurd hsucc.1 (by decide)
  · rename_i s2 q4 hqa
    split at hsucc
    · simp at hsucc
    · rename_i bp2 hbp2
      rw [BufferHubProducer.StRes.res.injEq] at hsucc
      obtain ⟨-, hst4⟩ := hsucc
      subst hst4
      have hq4 : st.queue_.firstFreeSlot = some s2 ∧
          q4 = { slots := ProducerQueue.setSlot st.queue_.slots s2
                   (some ⟨st.queue_.nextId, w, h, f⟩)
                 ready := st.queue_.ready ++ [s2]
                 nextId := st.queue_.nextId + 1 } := by
        unfold ProducerQueue.AllocateBuffer at hqa
        split at hqa
        · simp at hqa
        · rename_i s3 hff
          rw [Option.some.injEq, Prod.mk.injEq] at hqa
          obtain ⟨hs3, hqq⟩ := hqa
          subst hs3
          exact ⟨hff, hqq.symm⟩
      obtain ⟨hff, hq4eq⟩ := hq4
      subst hq4eq
      have hbp2eq : bp2 = ⟨st.queue_.nextId, w, h, f⟩ := by
        have hb := hbp2
        unfold ProducerQueue.GetBuffer at hb
        dsimp only at hb
        rw [getD_setSlot_self] at hb
        exact ((Option.some.injEq _ _).mp hb).symm
      subst hbp2eq
      refine ⟨s2, ?_, rfl, ?_, ?_⟩
      · unfold ProducerQueue.GetBuffer
        dsimp only
        exact getD_setSlot_self _ _ _
      · intro j hj
        unfold ProducerQueue.GetBuffer
        dsimp only
        exact getD_setSlot_ne _ _ _ _ (Ne.symm hj)
      · intro j
        unfold BufferHubProducer.slotAt
        dsimp only
        rcases eq_or_ne j s2 with rfl | hne
        · rw [getD_set_self]
          split
          · rfl
          · rename_i hout
            rw [List.getD_eq_default _ _ (Nat.le_of_not_lt hout)]
        · rw [getD_set_ne _ _ _ _ _ (Ne.symm hne)]

/-- A successful `reallocStep` (mark + remove + allocate) leaves the popped
slot marked reallocating, allocates a fresh buffer of the requested
geometry into the queue with its slot appended to the ready list, and
leaves the popped queue slot either unbound or re-bound to exactly that
fresh buffer. -/
theorem reallocStep_spec {w h f u slot : Nat} {st1 st4 : BufferHubProducer}
    (hin : slot < st1.buffers_.length)
    (hstep : BufferHubProducer.reallocStep w h f u slot st1
      = .res NO_ERROR st4) :
    (st4.slotAt slot).mIsReallocating = true ∧
    ∃ s2, st4.queue_.GetBuffer s2 = some ⟨st1.queue_.nextId, w, h, f⟩ ∧
      st4.queue_.ready = st1.queue_.ready ++ [s2] ∧
      (st4.queue_.GetBuffer slot = none ∨ s2 = slot) := by
  unfold BufferHubProducer.reallocStep at hstep
  obtain ⟨s2, hget, hready, hGetNe, hmarks⟩ :=
    AllocateBuffer_succ_spec w h 1 f u _ st4 hstep
  have hpres := RemoveBuffer_queue_pres
    (st1.setSlotAt slot (st1.slotAt slot).markRealloc) slot
  have hunb := RemoveBuffer_unbinds
    (st1.setSlotAt slot (st1.slotAt slot).markRealloc) slot
  have hmark1 :
      ((((st1.setSlotAt slot (st1.slotAt slot).markRealloc).RemoveBuffer
        slot).st).slotAt slot).mIsReallocating = true := by
    rw [RemoveBuffer_mark, slotAt_setSlotAt_self st1 slot _ hin]
    rfl
  constructor
  · rw [hmarks slot, hmark1]
  · refine ⟨s2, ?_, ?_, ?_⟩
    · rw [hget, hpres.2]
      rfl
    · rw [hready, hpres.1]
      rfl
    · rcases eq_or_ne s2 slot with rfl | hne
      · exact Or.inr rfl
      · exact Or.inl (by rw [hGetNe slot (Ne.symm hne), hunb])

/-- On a geometry/format mismatch with a successful reallocation, one
iteration of the pop-and-check loop is exactly `reallocStep` on the popped
slot followed by the retry on the resulting state. -/
theorem dequeueLoop_mismatch (w h f u fuel last s : Nat)
    (st st4 : BufferHubProducer) (bp : BufferProducerB) (q' : ProducerQueue)
    (hdq : st.queue_.Dequeue = some (s, some bp, q'))
    (hmis : ¬ (w = bp.width ∧ h = bp.height ∧ f = bp.format))
    (hstep : BufferHubProducer.reallocStep w h f u s (st.setQueue q')
      = .res NO_ERROR st4) :
    BufferHubProducer.dequeueLoop w h f u (fuel + 1) st last =
      (BufferHubProducer.dequeueLoop w h f u fuel st4 s).bump := by
  conv_lhs => rw [BufferHubProducer.dequeueLoop]
  rw [hdq]
  dsimp only
  rw [if_neg hmis, hstep]
  dsimp only
  rw [if_neg (by decide : ¬ (NO_ERROR : Int) < 0)]

/-- A successful `dequeueFinish` returns the popped slot with its
reallocating mark cleared, and its code carries
`BUFFER_NEEDS_REALLOCATION` exactly when the slot's mark was set. -/
theorem dequeueFinish_flag_iff {slot slot2 : Nat}
    {st2 stF : BufferHubProducer} {code : Int}
    (hok : BufferHubProducer.dequeueFinish slot st2 = .ok code slot2 stF) :
    slot2 = slot ∧ (stF.slotAt slot2).mIsReallocating = false ∧
    (code = BUFFER_NEEDS_REALLOCATION ↔
      (st2.slotAt slot).mIsReallocating = true) := by
  unfold BufferHubProducer.dequeueFinish at hok
  split at hok
  · split at hok
    · rename_i hflag
      rw [BufferHubProducer.DQRes.ok.injEq] at hok
      obtain ⟨hc, hs, hst⟩ := hok
      subst hc
      subst hs
      subst hst
      refine ⟨rfl, ?_, ?_⟩
      · simp only [BufferHubProducer.slotAt, BufferHubProducer.setSlotAt]
        rw [getD_set_self]
        split
        · rfl
        · rfl
      · simp [hflag]
    · rename_i hflag
      rw [BufferHubProducer.DQRes.ok.injEq] at hok
      obtain ⟨hc, hs, hst⟩ := hok
      subst hc
      subst hs
      subst hst
      refine ⟨rfl, ?_, iff_of_false (by decide) hflag⟩
      simp only [BufferHubProducer.slotAt, BufferHubProducer.setSlotAt]
      rw [getD_set_self]
      split
      · show (st2.slotAt slot).mIsReallocating = false
        simpa using hflag
      · rfl
  · simp at hok

/-! ## C1 scenario: the spec's reallocation-on-mismatch dequeue

A queue with two allocated buffers: slot 0 (the only ready slot) holds a
50×50 buffer of format 7, slot 1 holds a 640×480 buffer currently dequeued
by the caller.  The capacity (2) meets the
`max_dequeued_buffer_count_ + kDefaultUndequeuedBuffers` threshold, so
no lazy allocation happens, and a dequeue of 100×100×7 must hit the
mismatching ready slot. -/

def c1Queue : ProducerQueue :=
  { slots := [some ⟨10, 50, 50, 7⟩, some ⟨11, 640, 480, 7⟩]
    ready := [0]
    nextId := 20 }

def c1Slot0 : BufferHubSlot :=
  { mBufferProducer := some ⟨10, 50, 50, 7⟩
    mGraphicBuffer := none
    mBufferState := .queued
    mFence := noFence
    mRequestBufferCalled := false
    mIsReallocating := false }

def c1Slot1 : BufferHubSlot :=
  { mBufferProducer := some ⟨11, 640, 480, 7⟩
    mGraphicBuffer := some ⟨11, 640, 480, 7⟩
    mBufferState := .dequeued
    mFence := noFence
    mRequestBufferCalled := true
    mIsReallocating := false }

def c1St : BufferHubProducer :=
  { queue_ := c1Queue
    buffers_ := c1Slot0 :: c1Slot1 :: List.replicate 62 emptySlot
    connected_api_ := 1
    max_dequeued_buffer_count_ := 1
    max_buffer_count_ := 64 }

/-- The state after the reallocating dequeue of the C1 scenario. -/
def c1Final : BufferHubProducer :=
  (BufferHubProducer.dequeueBuffer c1St 100 100 7 0).stOf

/-- The C1 scenario state after cancelling the reallocated buffer back to
the ready list. -/
def c1AfterCancel : BufferHubProducer :=
  (BufferHubProducer.cancelBuffer c1Final 0 (some ⟨true⟩)).st

/-! ### C1 counterexample: the flag can be deferred to a later call

Two ready slots: slot 0 (popped first) holds a mismatching 50×50×7 buffer,
slot 1 holds a matching 100×100×7 buffer.  The dequeue of 100×100×7
reallocates slot 0's buffer but then pops slot 1, which matches, and
returns it with plain `NO_ERROR` — the flag for slot 0's buffer-identity
change is not in this call's return value; slot 0's mark stays set for a
later call. -/

def c1CexSt : BufferHubProducer :=
  { queue_ :=
      { slots := [some ⟨10, 50, 50, 7⟩, some ⟨11, 100, 100, 7⟩]
        ready := [0, 1]
        nextId := 20 }
    buffers_ :=
      { mBufferProducer := some ⟨10, 50, 50, 7⟩
        mGraphicBuffer := none
        mBufferState := .queued
        mFence := noFence
        mRequestBufferCalled := false
        mIsReallocating := false } ::
      { mBufferProducer := some ⟨11, 100, 100, 7⟩
        mGraphicBuffer := none
        mBufferState := .queued
        mFence := noFence
        mRequestBufferCalled := false
        mIsReallocating := false } :: List.replicate 62 emptySlot
    connected_api_ := 1
    max_dequeued_buffer_count_ := 1
    max_buffer_count_ := 64 }

/-- The state after the first dequeue on `c1CexSt`. -/
def c1CexSt2 : BufferHubProducer :=
  (BufferHubProducer.dequeueBuffer c1CexSt 100 100 7 0).stOf

/-- C1 is false as stated: at `c1CexSt` the dequeue call pops the
mismatching slot 0, replaces its buffer with a fresh 100×100×7 one, yet
the call's return value does **not** carry `BUFFER_NEEDS_REALLOCATION`
(it returns the already-matching slot 1 with plain `NO_ERROR`), and the
reallocating mark of slot 0 is left set rather than cleared. -/
theorem c1_counterexample :
    (BufferHubProducer.dequeueBuffer c1CexSt 100 100 7 0).okCode
      = some NO_ERROR ∧
    ((BufferHubProducer.dequeueBuffer c1CexSt 100 100 7 0).stOf.slotAt
      0).mBufferProducer = some ⟨20, 100, 100, 7⟩ ∧
    ((BufferHubProducer.dequeueBuffer c1CexSt 100 100 7 0).stOf.slotAt
      0).mIsReallocating = true ∧
    ¬ (BufferHubProducer.dequeueBuffer c1CexSt 100 100 7 0).okCode
        = some BUFFER_NEEDS_REALLOCATION := by
  decide

/-- The queue of `c1St` after its single ready slot 0 has been popped
(the input to the loop's reallocation step in that scenario). -/
def c1WQ : ProducerQueue :=
  { slots := [some ⟨10, 50, 50, 7⟩, some ⟨11, 640, 480, 7⟩]
    ready := []
    nextId := 20 }

/-- The state produced by the reallocation step of the `c1St` scenario. -/
def c1WSt4 : BufferHubProducer :=
  (BufferHubProducer.reallocStep 100 100 7 0 0 (c1St.setQueue c1WQ)).stOf

/-- A producer state whose slot 0 is Queued with the reallocating mark set
(as left behind by a deferred reallocation), ready to be finished. -/
def c1WFin : BufferHubProducer :=
  { queue_ :=
      { slots := [some ⟨21, 100, 100, 7⟩]
        ready := []
        nextId := 22 }
    buffers_ :=
      { mBufferProducer := some ⟨21, 100, 100, 7⟩
        mGraphicBuffer := none
        mBufferState := .queued
        mFence := noFence
        mRequestBufferCalled := false
        mIsReallocating := true } :: List.replicate 63 emptySlot
    connected_api_ := 1
    max_dequeued_buffer_count_ := 1
    max_buffer_count_ := 64 }

/-- C1 (amended): (mismatch step, universal) whenever the pop-and-check
loop pops a slot whose buffer's width/height/format differ from the
request and the reallocation succeeds, that slot is marked reallocating, a
fresh buffer of exactly the requested geometry is allocated into the queue
with its slot appended to the ready list, the popped queue slot is left
either unbound or re-bound to that fresh buffer, and the loop retries on
the resulting state.  (Return, universal) the call that returns a slot
always clears that slot's reallocating mark and its return code carries
`BUFFER_NEEDS_REALLOCATION` **iff** the mark was set — so the flag is
reported exactly once per slot buffer-identity change, though possibly by
a later dequeue call than the one that reallocated (see
`c1_counterexample`).  (Whole call, universal) every successful
`dequeueBuffer` returns with the slot's mark cleared and a code that is
`NO_ERROR` or `NO_ERROR ||| BUFFER_NEEDS_REALLOCATION`.  (Concrete) in the
spec's scenario, where the mismatching 50×50×7 slot is the only ready
slot, the same call returns that slot re-bound to a fresh buffer matching
the requested 100×100×7 descriptor with the flag set, and a subsequent
cancel + re-dequeue of the same slot returns plain `NO_ERROR`; in the
deferred scenario `c1CexSt` the second call returns the reallocated slot 0
with the flag — exactly once in both scenarios. -/
theorem c1_dequeue_reallocates_amended :
    (∀ (w h f u fuel last s : Nat) (st st4 : BufferHubProducer)
        (bp : BufferProducerB) (q' : ProducerQueue),
      st.queue_.Dequeue = some (s, some bp, q') →
      ¬ (w = bp.width ∧ h = bp.height ∧ f = bp.format) →
      s < st.buffers_.length →
      BufferHubProducer.reallocStep w h f u s (st.setQueue q')
        = .res NO_ERROR st4 →
      BufferHubProducer.dequeueLoop w h f u (fuel + 1) st last
        = (BufferHubProducer.dequeueLoop w h f u fuel st4 s).bump ∧
      (st4.slotAt s).mIsReallocating = true ∧
      ∃ s2, st4.queue_.GetBuffer s2 = some ⟨q'.nextId, w, h, f⟩ ∧
        st4.queue_.ready = q'.ready ++ [s2] ∧
        (st4.queue_.GetBuffer s = none ∨ s2 = s)) ∧
    (∀ (slot : Nat) (st2 stF : BufferHubProducer) (code : Int)
        (slot2 : Nat),
      BufferHubProducer.dequeueFinish slot st2 = .ok code slot2 stF →
      slot2 = slot ∧ (stF.slotAt slot2).mIsReallocating = false ∧
      (code = BUFFER_NEEDS_REALLOCATION ↔
        (st2.slotAt slot).mIsReallocating = true)) ∧
    (∀ (st stF : BufferHubProducer) (w h fmt usage slot : Nat) (code : Int),
      BufferHubProducer.dequeueBuffer st w h fmt usage = .ok code slot stF →
      (stF.slotAt slot).mIsReallocating = false ∧
      (code = BUFFER_NEEDS_REALLOCATION ∨ code = NO_ERROR)) ∧
    (BufferHubProducer.dequeueBuffer c1St 100 100 7 0
        = .ok BUFFER_NEEDS_REALLOCATION 0 c1Final ∧
      (c1Final.slotAt 0).mBufferProducer = some ⟨20, 100, 100, 7⟩ ∧
      (c1Final.slotAt 0).mBufferState = .dequeued ∧
      (c1Final.slotAt 0).mIsReallocating = false ∧
      (BufferHubProducer.dequeueBuffer c1AfterCancel 100 100 7 0).okCode
        = some NO_ERROR ∧
      (BufferHubProducer.dequeueBuffer c1AfterCancel 100 100 7 0).okSlot
        = some 0) ∧
    ((BufferHubProducer.dequeueBuffer c1CexSt2 100 100 7 0).okCode
        = some BUFFER_NEEDS_REALLOCATION ∧
      (BufferHubProducer.dequeueBuffer c1CexSt2 100 100 7 0).okSlot
        = some 0 ∧
      ((BufferHubProducer.dequeueBuffer c1CexSt2 100 100 7
        0).stOf.slotAt 0).mIsReallocating = false) := by
  refine ⟨?_, ?_, ?_, ?_, ?_⟩
  · intro w h f u fuel last s st st4 bp q' hdq hmis hin hstep
    refine ⟨dequeueLoop_mismatch w h f u fuel last s st st4 bp q'
      hdq hmis hstep, ?_, ?_⟩
    · exact (@reallocStep_spec w h f u s (st.setQueue q') st4 hin hstep).1
    · exact (@reallocStep_spec w h f u s (st.setQueue q') st4 hin hstep).2
  · intro slot st2 stF code slot2 hok
    exact dequeueFinish_flag_iff hok
  · intro st stF w h fmt usage slot code hok
    unfold BufferHubProducer.dequeueBuffer at hok
    split at hok
    · simp at hok
    · split at hok
      · simp at hok
      · split at hok
        · simp at hok
        · split at hok
          · simp at hok
          · simp at hok
          · exact ⟨(dequeueFinish_ok hok).2.1, (dequeueFinish_ok hok).2.2⟩
  · exact ⟨by decide, by decide, by decide, by decide, by decide, by decide⟩
  · exact ⟨by decide, by decide, by decide⟩

/-- Concrete instantiation of the universal parts of
`c1_dequeue_reallocates_amended`, at the `c1St` scenario (mismatch step
and whole call) and at a marked Queued slot (return step). -/
theorem c1_dequeue_reallocates_amended_witness :
    (BufferHubProducer.dequeueLoop 100 100 7 0 1 c1St 0
      = (BufferHubProducer.dequeueLoop 100 100 7 0 0 c1WSt4 0).bump ∧
     (c1WSt4.slotAt 0).mIsReallocating = true ∧
     ∃ s2, c1WSt4.queue_.GetBuffer s2 = some ⟨20, 100, 100, 7⟩ ∧
       c1WSt4.queue_.ready = c1WQ.ready ++ [s2] ∧
       (c1WSt4.queue_.GetBuffer 0 = none ∨ s2 = 0)) ∧
    ((0 : Nat) = 0 ∧
     (((BufferHubProducer.dequeueFinish 0 c1WFin).stOf).slotAt
       0).mIsReallocating = false ∧
     (BUFFER_NEEDS_REALLOCATION = BUFFER_NEEDS_REALLOCATION ↔
       (c1WFin.slotAt 0).mIsReallocating = true)) ∧
    ((c1Final.slotAt 0).mIsReallocating = false ∧
     (BUFFER_NEEDS_REALLOCATION = BUFFER_NEEDS_REALLOCATION ∨
       BUFFER_NEEDS_REALLOCATION = NO_ERROR)) :=
  ⟨c1_dequeue_reallocates_amended.1 100 100 7 0 0 0 0 c1St c1WSt4
      ⟨10, 50, 50, 7⟩ c1WQ (by decide) (by decide) (by decide) (by decide),
   c1_dequeue_reallocates_amended.2.1 0 c1WFin
      ((BufferHubProducer.dequeueFinish 0 c1WFin).stOf)
      BUFFER_NEEDS_REALLOCATION 0 (by decide),
   c1_dequeue_reallocates_amended.2.2.1 c1St c1Final 100 100 7 0 0
      BUFFER_NEEDS_REALLOCATION (by decide)⟩

/-! ## C8: termination bound and timeout behaviour of the dequeue loop -/

/-- `bump` adds exactly one executed iteration. -/
theorem iters_bump (r : BufferHubProducer.LoopRes) :
    r.bump.iters = r.iters + 1 := by
  cases r <;> rfl

/-- The pop-and-check loop executes at most `fuel` iterations. -/
theorem dequeueLoop_iters_le (w h f u : Nat) :
    ∀ (fuel : Nat) (st : BufferHubProducer) (last : Nat),
      (BufferHubProducer.dequeueLoop w h f u fuel st last).iters ≤ fuel := by
  intro fuel
  induction fuel with
  | zero =>
    intro st last
    simp [BufferHubProducer.dequeueLoop, BufferHubProducer.LoopRes.iters]
  | succ n ih =>
    intro st last
    unfold BufferHubProducer.dequeueLoop
    split
    · simp [BufferHubProducer.LoopRes.iters]
    · split
      · simp [BufferHubProducer.LoopRes.iters]
      · split
        · simp [BufferHubProducer.LoopRes.iters]
        · split
          · simp [BufferHubProducer.LoopRes.iters]
          · split
            · simp [BufferHubProducer.LoopRes.iters]
            · rw [iters_bump]
              exact Nat.succ_le_succ (ih _ _)

/-- When no slot is ready (the pop times out at once), the first loop
iteration fails with `NO_MEMORY` and no state change. -/
theorem dequeueLoop_no_ready (w h f u fuel last : Nat)
    (st : BufferHubProducer) (hready : st.queue_.ready = []) :
    BufferHubProducer.dequeueLoop w h f u (fuel + 1) st last =
      .fail NO_MEMORY st 1 := by
  unfold BufferHubProducer.dequeueLoop
  have hdq : st.queue_.Dequeue = none := by
    unfold ProducerQueue.Dequeue
    rw [hready]
  rw [hdq]

/-- C8: the pop-and-check loop of `dequeueBuffer` executes at most
`kMaxQueueCapacity` iterations, and when no slot is ready before the
timeout (with no lazy-allocation headroom to create one) the call returns
the `NO_MEMORY` ("no buffer available") error instead of blocking. -/
theorem c8_dequeue_terminates :
    (∀ (st : BufferHubProducer) (w h fmt usage last : Nat),
      (BufferHubProducer.dequeueLoop w h fmt usage
        kMaxQueueCapacity st last).iters ≤ kMaxQueueCapacity) ∧
    (∀ (st : BufferHubProducer) (w h fmt usage : Nat),
      st.connected_api_ ≠ kNoConnectedApi →
      ¬ ((st.queue_.capacity : Int) <
          st.max_dequeued_buffer_count_ + kDefaultUndequeuedBuffers) →
      st.queue_.ready = [] →
      BufferHubProducer.dequeueBuffer st w h fmt usage = .err NO_MEMORY st) := by
  constructor
  · intro st w h fmt usage last
    exact dequeueLoop_iters_le w h fmt usage kMaxQueueCapacity st last
  · intro st w h fmt usage hconn hcap hready
    unfold BufferHubProducer.dequeueBuffer
    rw [if_neg hconn, if_neg hcap]
    dsimp only
    rw [if_neg (by decide : ¬ (NO_ERROR : Int) < 0)]
    rw [show kMaxQueueCapacity = 63 + 1 from rfl,
      dequeueLoop_no_ready w h fmt usage 63 0 st hready]

/-- A connected producer state whose queue is at capacity threshold with an
empty ready list. -/
def c8St : BufferHubProducer :=
  { queue_ :=
      { slots := [some ⟨0, 640, 480, 1⟩, some ⟨1, 640, 480, 1⟩]
        ready := []
        nextId := 2 }
    buffers_ := List.replicate 64 emptySlot
    connected_api_ := 1
    max_dequeued_buffer_count_ := 1
    max_buffer_count_ := 64 }

/-- Concrete instantiation of `c8_dequeue_terminates` at `c8St`. -/
theorem c8_dequeue_terminates_witness :
    (BufferHubProducer.dequeueLoop 640 480 1 0 kMaxQueueCapacity c8St 0).iters
        ≤ kMaxQueueCapacity ∧
    BufferHubProducer.dequeueBuffer c8St 640 480 1 0 = .err NO_MEMORY c8St :=
  ⟨c8_dequeue_terminates.1 c8St 640 480 1 0 0,
   c8_dequeue_terminates.2 c8St 640 480 1 0 (by decide) (by decide) rfl⟩

/-! ## C10: setMaxDequeuedBufferCount -/

/-- C10: `setMaxDequeuedBufferCount(n)` fails with `BAD_VALUE` and leaves
the state (in particular the stored maximum) unchanged when `n ≤ 0`, when
`n` exceeds `kMaxQueueCapacity - kDefaultUndequeuedBuffers`, or when `n` is
less than the number of slots currently in Dequeued state; otherwise it
succeeds and stores `n`. -/
theorem c10_set_max_dequeued_count :
    ∀ (st : BufferHubProducer) (n : Int),
      ((n ≤ 0 ∨ n > (kMaxQueueCapacity : Int) - kDefaultUndequeuedBuffers) →
        st.setMaxDequeuedBufferCount n = ⟨BAD_VALUE, st⟩) ∧
      (0 < n → n ≤ (kMaxQueueCapacity : Int) - kDefaultUndequeuedBuffers →
        n < st.dequeuedCount →
        st.setMaxDequeuedBufferCount n = ⟨BAD_VALUE, st⟩) ∧
      (0 < n → n ≤ (kMaxQueueCapacity : Int) - kDefaultUndequeuedBuffers →
        st.dequeuedCount ≤ n →
        st.setMaxDequeuedBufferCount n =
          ⟨NO_ERROR, { st with max_dequeued_buffer_count_ := n }⟩) := by
  intro st n
  refine ⟨?_, ?_, ?_⟩
  · intro hbad
    unfold BufferHubProducer.setMaxDequeuedBufferCount
    rw [if_pos hbad]
  · intro h1 h2 h3
    unfold BufferHubProducer.setMaxDequeuedBufferCount
    rw [if_neg (by omega), if_pos (by omega)]
  · intro h1 h2 h3
    unfold BufferHubProducer.setMaxDequeuedBufferCount
    rw [if_neg (by omega), if_neg (by omega)]

/-- Concrete instantiation of `c10_set_max_dequeued_count` at `c8St`:
`n = 0` is rejected with the state unchanged, `n = 2` is stored. -/
theorem c10_set_max_dequeued_count_witness :
    BufferHubProducer.setMaxDequeuedBufferCount c8St 0 = ⟨BAD_VALUE, c8St⟩ ∧
    BufferHubProducer.setMaxDequeuedBufferCount c8St 2 =
      ⟨NO_ERROR, { c8St with max_dequeued_buffer_count_ := 2 }⟩ :=
  ⟨(c10_set_max_dequeued_count c8St 0).1 (Or.inl (by decide)),
   (c10_set_max_dequeued_count c8St 2).2.2 (by decide) (by decide) (by decide)⟩

/-! ## C3: queueBuffer rejects out-of-bounds crops -/

/-- C3: a `queueBuffer` on a connected producer's Dequeued, requested slot
whose crop rectangle is not fully contained in the bound buffer's bounds
fails with `BAD_VALUE` and performs no state transition: the returned state
is the input state (so the slot remains Dequeued and the ownership state is
untouched) and no Post is performed. -/
theorem c3_queue_rejects_oob_crop :
    ∀ (st : BufferHubProducer) (slot : Int) (input : QueueBufferInput)
      (f : Fence) (bp : BufferProducerB),
      (input.scalingMode = NATIVE_WINDOW_SCALING_MODE_FREEZE ∨
       input.scalingMode = NATIVE_WINDOW_SCALING_MODE_SCALE_TO_WINDOW ∨
       input.scalingMode = NATIVE_WINDOW_SCALING_MODE_SCALE_CROP ∨
       input.scalingMode = NATIVE_WINDOW_SCALING_MODE_NO_SCALE_CROP) →
      input.fence = some f →
      st.connected_api_ ≠ kNoConnectedApi →
      ¬ (slot < 0 ∨ st.max_buffer_count_ ≤ slot) →
      (st.slotAt slot.toNat).mBufferState.isDequeued = true →
      (st.slotAt slot.toNat).mRequestBufferCalled = true →
      (st.slotAt slot.toNat).mGraphicBuffer ≠ none →
      (st.slotAt slot.toNat).mBufferProducer = some bp →
      ¬ (0 ≤ input.crop.left ∧ 0 ≤ input.crop.top ∧
         input.crop.right ≤ (bp.width : Int) ∧
         input.crop.bottom ≤ (bp.height : Int)) →
      st.queueBuffer slot input = .res BAD_VALUE st none none := by
  intro st slot input f bp hmode hfence hconn hrange hdeq hreq hgb hbp hcrop
  have hne : input.crop.intersect ⟨0, 0, (bp.width : Int), (bp.height : Int)⟩
      ≠ input.crop := by
    intro heq
    apply hcrop
    have h1 := congrArg Rect.left heq
    have h2 := congrArg Rect.top heq
    have h3 := congrArg Rect.right heq
    have h4 := congrArg Rect.bottom heq
    simp only [Rect.intersect] at h1 h2 h3 h4
    exact ⟨max_eq_left_iff.mp h1, max_eq_left_iff.mp h2,
      min_eq_left_iff.mp h3, min_eq_left_iff.mp h4⟩
  unfold BufferHubProducer.queueBuffer
  rw [if_neg (not_not_intro hmode), hfence]
  dsimp only
  rw [if_neg hconn, if_neg hrange, if_neg (not_not_intro hdeq),
    if_neg (by simp [hreq, hgb]), hbp]
  dsimp only
  rw [if_pos hne]

/-- A connected producer state whose slot 0 is Dequeued and requested with
a 50×50 buffer bound (used by the C3/C4/C5 witnesses). -/
def c3St : BufferHubProducer :=
  { queue_ :=
      { slots := [some ⟨10, 50, 50, 7⟩]
        ready := []
        nextId := 11 }
    buffers_ :=
      { mBufferProducer := some ⟨10, 50, 50, 7⟩
        mGraphicBuffer := some ⟨10, 50, 50, 7⟩
        mBufferState := .dequeued
        mFence := noFence
        mRequestBufferCalled := true
        mIsReallocating := false } :: List.replicate 63 emptySlot
    connected_api_ := 1
    max_dequeued_buffer_count_ := 1
    max_buffer_count_ := 64 }

/-- An input whose crop `(0,0)–(60,60)` extends outside a 50×50 buffer. -/
def c3Input : QueueBufferInput :=
  { timestamp := 123
    isAutoTimestamp := false
    dataspace := 0
    crop := ⟨0, 0, 60, 60⟩
    scalingMode := 0
    transform := 0
    fence := some ⟨true⟩ }

/-- Concrete instantiation of `c3_queue_rejects_oob_crop` at `c3St`. -/
theorem c3_queue_rejects_oob_crop_witness :
    BufferHubProducer.queueBuffer c3St 0 c3Input = .res BAD_VALUE c3St none none :=
  c3_queue_rejects_oob_crop c3St 0 c3Input ⟨true⟩ ⟨10, 50, 50, 7⟩
    (Or.inl rfl) rfl (by decide) (by decide) (by decide) (by decide)
    (by decide) (by decide) (by decide)

/-! ## C4: cancelBuffer -/

/-- A Dequeued slot's index is always within the slot table. -/
theorem lt_length_of_isDequeued {st : BufferHubProducer} {slot : Nat}
    (hdeq : (st.slotAt slot).mBufferState.isDequeued = true) :
    slot < st.buffers_.length := by
  by_contra hout
  have hempty : st.slotAt slot = emptySlot := by
    unfold BufferHubProducer.slotAt
    exact List.getD_eq_default _ _ (Nat.le_of_not_lt hout)
  rw [hempty] at hdeq
  exact absurd hdeq (by decide)

/-- C4 counterexample: the claim "cancel clears the slot's local
request-state" is false.  At a concrete Dequeued, requested slot,
`cancelBuffer` succeeds but `mRequestBufferCalled` stays `true` and the
cached `GraphicBuffer` reference stays set. -/
theorem c4_counterexample :
    ¬ ((BufferHubProducer.cancelBuffer c3St 0 (some ⟨true⟩)).code = NO_ERROR →
       ((BufferHubProducer.cancelBuffer c3St 0
          (some ⟨true⟩)).st.slotAt 0).mRequestBufferCalled = false ∧
       ((BufferHubProducer.cancelBuffer c3St 0
          (some ⟨true⟩)).st.slotAt 0).mGraphicBuffer = none) := by
  decide

/-- C4 (amended): a successful `cancelBuffer` on a Dequeued slot returns the
buffer to the queue's ready list without posting it, moves the slot to
Free and stores the fence — but the request-state (the
`mRequestBufferCalled` flag and the cached `GraphicBuffer` reference) is
retained, not cleared. -/
theorem c4_cancel_returns_to_ready :
    ∀ (st : BufferHubProducer) (slot : Int) (f : Fence),
      st.connected_api_ ≠ kNoConnectedApi →
      ¬ (slot < 0 ∨ st.max_buffer_count_ ≤ slot) →
      (st.slotAt slot.toNat).mBufferState.isDequeued = true →
      (st.cancelBuffer slot (some f)).code = NO_ERROR ∧
      (st.cancelBuffer slot (some f)).st.queue_.ready
        = st.queue_.ready ++ [slot.toNat] ∧
      ((st.cancelBuffer slot (some f)).st.slotAt slot.toNat).mBufferState
        = .free ∧
      ((st.cancelBuffer slot (some f)).st.slotAt slot.toNat).mFence = f ∧
      ((st.cancelBuffer slot (some f)).st.slotAt
          slot.toNat).mRequestBufferCalled
        = (st.slotAt slot.toNat).mRequestBufferCalled ∧
      ((st.cancelBuffer slot (some f)).st.slotAt slot.toNat).mGraphicBuffer
        = (st.slotAt slot.toNat).mGraphicBuffer := by
  intro st slot f hconn hrange hdeq
  have hin : slot.toNat < st.buffers_.length := lt_length_of_isDequeued hdeq
  have hres : st.cancelBuffer slot (some f) =
      ⟨NO_ERROR,
       ((st.setSlotAt slot.toNat
          ((st.slotAt slot.toNat).cancelled f)).setQueue
         (st.queue_.Enqueue slot.toNat))⟩ := by
    unfold BufferHubProducer.cancelBuffer
    rw [if_neg hconn, if_neg hrange, if_neg (not_not_intro hdeq)]
  have hslot : ((st.setSlotAt slot.toNat
      ((st.slotAt slot.toNat).cancelled f)).setQueue
        (st.queue_.Enqueue slot.toNat)).slotAt slot.toNat
      = (st.slotAt slot.toNat).cancelled f := by
    unfold BufferHubProducer.setQueue BufferHubProducer.setSlotAt
      BufferHubProducer.slotAt
    dsimp only
    rw [getD_set_self, if_pos hin]
  rw [hres]
  refine ⟨rfl, rfl, ?_, ?_, ?_, ?_⟩ <;> (rw [show (OpOut.mk NO_ERROR _).st = _ from rfl, hslot]; rfl)

/-- Concrete instantiation of `c4_cancel_returns_to_ready` at `c3St`. -/
theorem c4_cancel_returns_to_ready_witness :
    (BufferHubProducer.cancelBuffer c3St 0 (some ⟨true⟩)).code = NO_ERROR ∧
    (BufferHubProducer.cancelBuffer c3St 0 (some ⟨true⟩)).st.queue_.ready
      = c3St.queue_.ready ++ [(0 : Int).toNat] ∧
    ((BufferHubProducer.cancelBuffer c3St 0
        (some ⟨true⟩)).st.slotAt (0 : Int).toNat).mBufferState = .free ∧
    ((BufferHubProducer.cancelBuffer c3St 0
        (some ⟨true⟩)).st.slotAt (0 : Int).toNat).mFence = ⟨true⟩ ∧
    ((BufferHubProducer.cancelBuffer c3St 0
        (some ⟨true⟩)).st.slotAt (0 : Int).toNat).mRequestBufferCalled
      = (c3St.slotAt (0 : Int).toNat).mRequestBufferCalled ∧
    ((BufferHubProducer.cancelBuffer c3St 0
        (some ⟨true⟩)).st.slotAt (0 : Int).toNat).mGraphicBuffer
      = (c3St.slotAt (0 : Int).toNat).mGraphicBuffer :=
  c4_cancel_returns_to_ready c3St 0 ⟨true⟩ (by decide) (by decide) (by decide)

/-! ## C5: detach requires a requested, Dequeued slot -/

/-- C5: `DetachBufferLocked` on a connected producer's Dequeued slot fails
with the protocol error `BAD_VALUE` and no state change when `request` was
never called on the slot; when the slot has been requested and a buffer is
bound at that queue slot, it succeeds and leaves the slot Free and unbound
(no bound producer buffer, no cached `GraphicBuffer`, request-state
cleared, queue slot emptied). -/
theorem c5_detach_requires_request :
    ∀ (st : BufferHubProducer) (slot : Nat),
      st.connected_api_ ≠ kNoConnectedApi →
      ¬ st.max_buffer_count_ ≤ (slot : Int) →
      (st.slotAt slot).mBufferState.isDequeued = true →
      (((st.slotAt slot).mRequestBufferCalled = false →
        st.DetachBufferLocked slot = ⟨BAD_VALUE, st⟩) ∧
       (∀ bp, (st.slotAt slot).mRequestBufferCalled = true →
        st.queue_.GetBuffer slot = some bp →
        (st.DetachBufferLocked slot).code = NO_ERROR ∧
        ((st.DetachBufferLocked slot).st.slotAt slot).mBufferProducer
          = none ∧
        ((st.DetachBufferLocked slot).st.slotAt slot).mGraphicBuffer
          = none ∧
        ((st.DetachBufferLocked slot).st.slotAt slot).mRequestBufferCalled
          = false ∧
        ((st.DetachBufferLocked slot).st.slotAt slot).mBufferState
          = .free ∧
        (st.DetachBufferLocked slot).st.queue_.GetBuffer slot = none)) := by
  intro st slot hconn hrange hdeq
  constructor
  · intro hreq0
    unfold BufferHubProducer.DetachBufferLocked
    rw [if_neg hconn, if_neg hrange, if_neg (not_not_intro hdeq),
      if_pos (by simp [hreq0])]
  · intro bp hreq hbp
    have hin : slot < st.buffers_.length := lt_length_of_isDequeued hdeq
    have hgd : st.queue_.slots.getD slot none = some bp := hbp
    have hqrem : st.queue_.RemoveBuffer slot
        = some (st.queue_.removeSlot slot) := by
      unfold ProducerQueue.RemoveBuffer
      rw [if_pos (by rw [hgd]; rfl)]
    have hrem : st.RemoveBuffer slot =
        ⟨NO_ERROR, (st.setSlotAt slot (st.slotAt slot).detached).setQueue
          (st.queue_.removeSlot slot)⟩ := by
      unfold BufferHubProducer.RemoveBuffer
      rw [hqrem]
    have hres : st.DetachBufferLocked slot =
        ⟨NO_ERROR, (st.setSlotAt slot (st.slotAt slot).detached).setQueue
          (st.queue_.removeSlot slot)⟩ := by
      unfold BufferHubProducer.DetachBufferLocked
      rw [if_neg hconn, if_neg hrange, if_neg (not_not_intro hdeq),
        if_neg (by simp [hreq]), hbp]
      dsimp only
      rw [hrem]
      rfl
    have hslot : ((st.setSlotAt slot (st.slotAt slot).detached).setQueue
        (st.queue_.removeSlot slot)).slotAt slot
        = (st.slotAt slot).detached := by
      unfold BufferHubProducer.setQueue BufferHubProducer.setSlotAt
        BufferHubProducer.slotAt
      dsimp only
      rw [getD_set_self, if_pos hin]
    have hdeq' : (st.slotAt slot).mBufferState = .dequeued := by
      rcases h : (st.slotAt slot).mBufferState with _ | _ | _
      · rw [h] at hdeq
        exact absurd hdeq (by decide)
      · rfl
      · rw [h] at hdeq
        exact absurd hdeq (by decide)
    rw [hres]
    refine ⟨rfl, ?_, ?_, ?_, ?_, ?_⟩
    · rw [show (OpOut.mk NO_ERROR _).st = _ from rfl, hslot]
      rfl
    · rw [show (OpOut.mk NO_ERROR _).st = _ from rfl, hslot]
      rfl
    · rw [show (OpOut.mk NO_ERROR _).st = _ from rfl, hslot]
      rfl
    · rw [show (OpOut.mk NO_ERROR _).st = _ from rfl, hslot]
      show BufferState.detachProducer (st.slotAt slot).mBufferState = .free
      rw [hdeq']
      rfl
    · rw [show (OpOut.mk NO_ERROR _).st = _ from rfl]
      show (st.queue_.slots.set slot none).getD slot none = none
      rw [getD_set_self]
      split
      · rfl
      · rfl

/-- `c3St` with the request-buffer flag still clear: dequeued but never
requested. -/
def c5St : BufferHubProducer :=
  { queue_ :=
      { slots := [some ⟨10, 50, 50, 7⟩]
        ready := []
        nextId := 11 }
    buffers_ :=
      { mBufferProducer := some ⟨10, 50, 50, 7⟩
        mGraphicBuffer := none
        mBufferState := .dequeued
        mFence := noFence
        mRequestBufferCalled := false
        mIsReallocating := false } :: List.replicate 63 emptySlot
    connected_api_ := 1
    max_dequeued_buffer_count_ := 1
    max_buffer_count_ := 64 }

/-- Concrete instantiation of `c5_detach_requires_request`: detach of the
never-requested slot of `c5St` fails with `BAD_VALUE`; detach of the
requested slot of `c3St` succeeds and frees/unbinds the slot. -/
theorem c5_detach_requires_request_witness :
    BufferHubProducer.DetachBufferLocked c5St 0 = ⟨BAD_VALUE, c5St⟩ ∧
    (BufferHubProducer.DetachBufferLocked c3St 0).code = NO_ERROR ∧
    ((BufferHubProducer.DetachBufferLocked c3St 0).st.slotAt
      0).mBufferProducer = none ∧
    ((BufferHubProducer.DetachBufferLocked c3St 0).st.slotAt
      0).mBufferState = .free :=
  ⟨(c5_detach_requires_request c5St 0 (by decide) (by decide) (by decide)).1
      (by decide),
   ((c5_detach_requires_request c3St 0 (by decide) (by decide) (by decide)).2
      ⟨10, 50, 50, 7⟩ (by decide) (by decide)).1,
   ((c5_detach_requires_request c3St 0 (by decide) (by decide) (by decide)).2
      ⟨10, 50, 50, 7⟩ (by decide) (by decide)).2.1,
   ((c5_detach_requires_request c3St 0 (by decide) (by decide) (by decide)).2
      ⟨10, 50, 50, 7⟩ (by decide) (by decide)).2.2.2.2.1⟩

end BufferHubV
